import Mathlib

/-!
Shallow embedding of `generate_stats.py` (a GitHub profile statistics
generator): data model, fetch/retry logic, aggregation and SVG rendering,
together with theorems checking the documented properties against the code.

Network effects are modelled by explicit response values and oracle
functions passed as parameters; Python dicts (which preserve insertion
order) are modelled as association lists; Python floats are modelled as
exact rationals.
-/

namespace GenStats

/-- `USERNAME` constant (generate_stats.py line 16). -/
def USERNAME : String := "PeterBenc"

/-- `START_YEAR` constant (line 17). -/
def START_YEAR : Nat := 2016

/-- `STAR_REPOS` (lines 23-28): repos counted toward the star total. -/
def STAR_REPOS : List String :=
  ["vacuumlabs/cardano-hw-cli", "vacuumlabs/adalite",
   "nufi-official/nufi", "nufi-official/nufi-snap"]

/-- `CONTRIBUTION_REPOS` (lines 34-55): repos scanned for lines changed
and languages, in addition to the personal repos. -/
def CONTRIBUTION_REPOS : List String :=
  ["nufi-official/nufi", "nufi-official/nufi-app", "nufi-official/nufi-snap",
   "nufi-official/nufi-dapp-sdk", "nufi-official/fundx",
   "nufi-official/metamask-snap-demo", "nufi-official/fcl-web3auth-plugin",
   "nufi-official/flow-ispo", "nufi-official/zcash-router-sdk",
   "nufi-official/nufi-proxies", "nufi-official/nufi-landing-page",
   "nufi-official/nufi-connect-dashboard", "nufi-official/metamask-key-tree",
   "nufi-official/brud", "vacuumlabs/adalite", "vacuumlabs/cardano-hw-cli",
   "trezor/trezor-suite"]

/-- One node of the `get_user_repos` GraphQL result (lines 77-83):
`nameWithOwner` and `stargazerCount`. -/
structure RepoNode where
  nameWithOwner : String
  stargazerCount : Nat
deriving Repr, DecidableEq

/-- One week entry of a contributor's stats: additions `a` and deletions
`d` (REST `stats/contributors` body, used at lines 173-174). -/
structure Week where
  a : Nat
  d : Nat
deriving Repr, DecidableEq

/-- One contributor entry of the `stats/contributors` body (lines 168-175):
the author login (`none` models a null author object, `some login` a
present author whose missing login key defaults to the empty string) and
the list of weeks. -/
structure Contributor where
  author : Option String
  weeks : List Week
deriving Repr, DecidableEq

/-- A REST response from the `stats/contributors` endpoint: the HTTP
status code and, for the parse step, the JSON body (`none` models a body
that is not a list, rejected by the `isinstance` check at line 165). -/
structure StatsResponse where
  status : Nat
  body : Option (List Contributor)
deriving Repr, DecidableEq

/-- Result of `get_contributor_stats`: the returned
`(additions, deletions)` pair, the number of HTTP requests issued, and
the list of sleep durations performed (one entry per `time.sleep` call,
in seconds). -/
structure PollResult where
  value : Nat × Nat
  requests : Nat
  sleeps : List Nat
deriving Repr, DecidableEq

/-- The scan of the contributor list (lines 168-177): find the first
entry whose author login equals `user` case-insensitively (entries with a
null author are skipped) and return its summed weekly additions and
deletions; `(0, 0)` if no entry matches. -/
def contributorLines (user : String) : List Contributor → Nat × Nat
  | [] => (0, 0)
  | c :: rest =>
    match c.author with
    | none => contributorLines user rest
    | some login =>
      if login.toLower = user.toLower then
        ((c.weeks.map Week.a).sum, (c.weeks.map Week.d).sum)
      else contributorLines user rest

/-- The code after the retry loop of `get_contributor_stats`
(lines 161-177): a non-200 final status yields `(0, 0)`, a non-list body
yields `(0, 0)`, otherwise the body is scanned for the user's entry. -/
def afterLoop (user : String) (r : StatsResponse) (reqs : Nat)
    (slept : List Nat) : PollResult :=
  if r.status ≠ 200 then ⟨(0, 0), reqs, slept⟩
  else
    match r.body with
    | none => ⟨(0, 0), reqs, slept⟩
    | some contributors => ⟨contributorLines user contributors, reqs, slept⟩

/-- The retry loop of `get_contributor_stats` (lines 152-159):
`for attempt in range(3)`. `resp i` is the response to the request of
attempt `i`; `remaining` counts loop iterations left, `i` is the attempt
index, `reqs`/`slept` record the requests issued and the sleeps
performed. Status 200 breaks out of the loop, status 202 sleeps 3 seconds
and continues, and any other status returns `(0, 0)` at once. When the
loop exhausts all three iterations, `r` still holds the response of the
last attempt (index `i - 1`). -/
def statsLoop (user : String) (resp : Nat → StatsResponse) :
    Nat → Nat → Nat → List Nat → PollResult
  | 0, i, reqs, slept => afterLoop user (resp (i - 1)) reqs slept
  | n + 1, i, reqs, slept =>
    let r := resp i
    if r.status = 200 then afterLoop user r (reqs + 1) slept
    else if r.status = 202 then
      statsLoop user resp n (i + 1) (reqs + 1) (slept ++ [3])
    else ⟨(0, 0), reqs + 1, slept⟩

/-- `get_contributor_stats` (lines 149-177), with the HTTP layer
abstracted into the per-attempt response oracle `resp`. -/
def get_contributor_stats (user : String) (resp : Nat → StatsResponse) :
    PollResult :=
  statsLoop user resp 3 0 0 []

/-- Running aggregation state of the contribution scan in `main`
(lines 330-375): the seen-repository set, the running addition and
deletion totals, and the cumulative language tally (insertion-ordered,
as a Python dict). -/
structure ScanState where
  seen : List String
  additions : Nat
  deletions : Nat
  languages : List (String × Nat)
deriving Repr, DecidableEq

/-- `languages[lang] = languages.get(lang, 0) + bytes_count` on an
insertion-ordered tally (lines 352-353, 373-374): update the entry in
place when the key is present, append a fresh entry otherwise. -/
def bumpLang (t : List (String × Nat)) (lang : String) (bytes : Nat) :
    List (String × Nat) :=
  if t.any (fun p => p.1 = lang) then
    t.map (fun p => if p.1 = lang then (p.1, p.2 + bytes) else p)
  else t ++ [(lang, bytes)]

/-- The `for lang, bytes_count in langs.items()` merge loop
(lines 352-353, 373-374). -/
def mergeLangs (t : List (String × Nat)) (repoLangs : List (String × Nat)) :
    List (String × Nat) :=
  repoLangs.foldl (fun acc p => bumpLang acc p.1 p.2) t

/-- Body of the personal-repos loop (lines 339-353): an empty
`nameWithOwner` is skipped; otherwise the repo name is added to the seen
set unconditionally, its line stats are accumulated, and its language
bytes are merged exactly when `a + d > 0`. `stats` is the
`get_contributor_stats` oracle and `langs` the `get_repo_languages`
oracle, both keyed by the repo full name. -/
def processPersonal (stats : String → Nat × Nat)
    (langs : String → List (String × Nat)) (s : ScanState)
    (repo : RepoNode) : ScanState :=
  if repo.nameWithOwner = "" then s
  else
    let a := (stats repo.nameWithOwner).1
    let d := (stats repo.nameWithOwner).2
    { seen := repo.nameWithOwner :: s.seen
      additions := s.additions + a
      deletions := s.deletions + d
      languages :=
        if 0 < a + d then mergeLangs s.languages (langs repo.nameWithOwner)
        else s.languages }

/-- Body of the contribution-repos loop (lines 360-374): a repo whose
full name is already in the seen set is skipped entirely; otherwise it is
processed exactly like a personal repo. -/
def processContrib (stats : String → Nat × Nat)
    (langs : String → List (String × Nat)) (s : ScanState)
    (repo_full : String) : ScanState :=
  if repo_full ∈ s.seen then s
  else
    let a := (stats repo_full).1
    let d := (stats repo_full).2
    { seen := repo_full :: s.seen
      additions := s.additions + a
      deletions := s.deletions + d
      languages :=
        if 0 < a + d then mergeLangs s.languages (langs repo_full)
        else s.languages }

/-- The full contribution scan of `main` (lines 330-375): the personal
repos are processed first, then the explicit contribution repos. -/
def scanContributions (stats : String → Nat × Nat)
    (langs : String → List (String × Nat)) (personal : List RepoNode)
    (contribution : List String) : ScanState :=
  contribution.foldl (processContrib stats langs)
    (personal.foldl (processPersonal stats langs) ⟨[], 0, 0, []⟩)

/-- The observable outcome of the scan: addition and deletion totals and
the language tally (the seen set is internal bookkeeping; `main` uses
`total_additions + total_deletions` and `languages` afterwards). -/
def scanTotals (stats : String → Nat × Nat)
    (langs : String → List (String × Nat)) (personal : List RepoNode)
    (contribution : List String) : Nat × Nat × List (String × Nat) :=
  let s := scanContributions stats langs personal contribution
  (s.additions, s.deletions, s.languages)

/-- `personal_stars` (line 313): sum of `stargazerCount` over the user's
own repos. -/
def personalStars (user_repos : List RepoNode) : Nat :=
  (user_repos.map RepoNode.stargazerCount).sum

/-- The star-repos loop (lines 318-323): `org_stars` accumulated over
`STAR_REPOS`; `star_count repo_full` models
`get_repo_stars(*repo_full.split("/"))`. -/
def orgStars (star_count : String → Nat) (star_repos : List String) : Nat :=
  star_repos.foldl (fun acc repo_full => acc + star_count repo_full) 0

/-- `total_stars = personal_stars + org_stars` (line 325). -/
def totalStars (star_count : String → Nat) (user_repos : List RepoNode)
    (star_repos : List String) : Nat :=
  personalStars user_repos + orgStars star_count star_repos

/-- An HTTP response to a GraphQL query (lines 63-69): the status code, a
flag for whether the JSON body carries an `errors` key, and the payload
reached through the chain of defaulting `.get` calls on the `data` key
(`none` when any link of the chain is missing). -/
structure GqlResponse (α : Type) where
  status : Nat
  hasErrors : Bool
  payload : Option α
deriving Repr, DecidableEq

/-- The `graphql` helper (lines 63-69). The argument models the outcome
of `requests.post`: `.error` is a raised transport exception, which
propagates. `r.raise_for_status()` raises an `HTTPError` for status
codes of 400 and above. A body-level `errors` key is only printed
(line 68) and the `data` payload is returned regardless. -/
def graphql {α : Type} (r : Except String (GqlResponse α)) :
    Except String (Option α) :=
  match r with
  | .error e => .error e
  | .ok resp =>
    if 400 ≤ resp.status then .error "HTTPError"
    else .ok resp.payload

/-- The `contributionsCollection` fields requested at lines 103-108. -/
structure ContributionsCollection where
  totalCommitContributions : Nat
  restrictedContributionsCount : Nat
  totalPullRequestContributions : Nat
  totalIssueContributions : Nat
deriving Repr, DecidableEq

/-- The per-year totals returned by `get_contributions_for_year`
(lines 114-118). -/
structure YearContrib where
  commits : Nat
  prs : Nat
  issues : Nat
deriving Repr, DecidableEq

/-- `get_contributions_for_year` (lines 90-118), applied to the response
of its GraphQL query. The `.get` chain
`data.get("user", {}).get("contributionsCollection", {})` with the
per-field `.get(..., 0)` defaults is modelled by the `Option` payload:
a missing collection yields all-zero counts while the run continues. -/
def get_contributions_for_year
    (r : Except String (GqlResponse ContributionsCollection)) :
    Except String YearContrib :=
  match graphql r with
  | .error e => .error e
  | .ok none => .ok ⟨0, 0, 0⟩
  | .ok (some c) =>
    .ok ⟨c.totalCommitContributions + c.restrictedContributionsCount,
         c.totalPullRequestContributions, c.totalIssueContributions⟩

/-- `get_user_repos` (lines 72-87), applied to the response of its
GraphQL query: a missing `user`/`repositories`/`nodes` chain defaults to
the empty node list. -/
def get_user_repos (r : Except String (GqlResponse (List RepoNode))) :
    Except String (List RepoNode) :=
  match graphql r with
  | .error e => .error e
  | .ok none => .ok []
  | .ok (some nodes) => .ok nodes

/-- The `stats` dict assembled in `main` (lines 379-385). -/
structure AggregateStats where
  stars : Nat
  commits : Nat
  prs : Nat
  issues : Nat
  lines_changed : Nat
deriving Repr, DecidableEq

/-- Splits a reversed digit list into groups of three (the grouping that
`format(n, ",")` performs from the right). -/
def chunk3 : List Char → List (List Char)
  | [] => []
  | a :: b :: c :: rest => [a, b, c] :: chunk3 rest
  | l => [l]

/-- `format_number` (lines 200-201): `f"{n:,}"`, the thousands-separated
full decimal integer. -/
def format_number (n : Nat) : String :=
  String.mk ((List.intercalate [','] (chunk3 (toString n).data.reverse)).reverse)

/-- The `items` list of `generate_stats_svg` (lines 205-210): label,
formatted value and icon key for each of the four rendered rows. The
`issues` field of the input is not referenced. -/
def statsItems (stats : AggregateStats) : List (String × String × String) :=
  [("Stars", format_number stats.stars, "star"),
   ("All-time Contributions", format_number stats.commits, "commit"),
   ("Total PRs", format_number stats.prs, "pr"),
   ("Lines of Code Changed", format_number stats.lines_changed, "code")]

/-- The `icons` dict of `generate_stats_svg` (lines 212-218), accessed
via `icons.get(icon_key, "")`. The `issue` glyph is present in the dict
but never requested by `items`. -/
def iconFor (icon_key : String) : String :=
  if icon_key = "star" then
    "<path d=\"M8 0.5l2.45 5.04 5.55 0.77-4.02 3.87 0.98 5.52L8 13.07l-4.96 2.63 0.98-5.52L0 6.31l5.55-0.77z\" fill=\"#8b949e\"/>"
  else if icon_key = "commit" then
    "<circle cx=\"8\" cy=\"8\" r=\"3.5\" stroke=\"#8b949e\" stroke-width=\"1.8\" fill=\"none\"/><line x1=\"8\" y1=\"11.5\" x2=\"8\" y2=\"16\" stroke=\"#8b949e\" stroke-width=\"1.8\"/><line x1=\"8\" y1=\"0\" x2=\"8\" y2=\"4.5\" stroke=\"#8b949e\" stroke-width=\"1.8\"/>"
  else if icon_key = "pr" then
    "<path d=\"M4.5 1v6.5a3 3 0 003 3H11\" stroke=\"#8b949e\" stroke-width=\"1.8\" fill=\"none\" stroke-linecap=\"round\"/><circle cx=\"4.5\" cy=\"13\" r=\"2\" stroke=\"#8b949e\" stroke-width=\"1.5\" fill=\"none\"/><circle cx=\"13\" cy=\"10.5\" r=\"2\" stroke=\"#8b949e\" stroke-width=\"1.5\" fill=\"none\"/><path d=\"M4.5 1L2 3.5M4.5 1L7 3.5\" stroke=\"#8b949e\" stroke-width=\"1.8\" fill=\"none\" stroke-linecap=\"round\"/>"
  else if icon_key = "issue" then
    "<circle cx=\"8\" cy=\"8\" r=\"7\" stroke=\"#8b949e\" stroke-width=\"1.6\" fill=\"none\"/><line x1=\"8\" y1=\"4\" x2=\"8\" y2=\"9\" stroke=\"#8b949e\" stroke-width=\"2\" stroke-linecap=\"round\"/><circle cx=\"8\" cy=\"12\" r=\"1\" fill=\"#8b949e\"/>"
  else if icon_key = "code" then
    "<path d=\"M5.5 3.5L1 8l4.5 4.5M10.5 3.5L15 8l-4.5 4.5\" stroke=\"#8b949e\" stroke-width=\"1.8\" fill=\"none\" stroke-linecap=\"round\" stroke-linejoin=\"round\"/>"
  else ""

/-- One row of the statistics card (lines 226-234): `y = 60 + i * 34`
(`padding_top + i * row_height`), label and value columns at fixed x
offsets, value right-aligned at `card_width - 60 = 320`. -/
def statsRow (i : Nat) (label value icon_key : String) : String :=
  "\n        <g transform=\"translate(30, " ++ toString (60 + i * 34) ++
  ")\">\n            <g transform=\"translate(0, -7)\">" ++ iconFor icon_key ++
  "</g>\n            <text x=\"24\" y=\"1\" fill=\"#c9d1d9\" font-size=\"14\" font-family=\"Segoe UI, Ubuntu, -apple-system, sans-serif\">" ++
  label ++
  "</text>\n            <text x=\"320\" y=\"1\" fill=\"white\" font-size=\"14\" font-family=\"Segoe UI, Ubuntu, -apple-system, sans-serif\" text-anchor=\"end\" font-weight=\"bold\">" ++
  value ++ "</text>\n        </g>"

/-- `generate_stats_svg` (lines 204-242): the fixed 380x220 card with the
title, the separator line, and the four enumerated rows. -/
def generate_stats_svg (stats : AggregateStats) : String :=
  let rows_svg := String.join ((statsItems stats).enum.map
    (fun p => statsRow p.1 p.2.1 p.2.2.1 p.2.2.2))
  "<svg xmlns=\"http://www.w3.org/2000/svg\" width=\"380\" height=\"220\" viewBox=\"0 0 380 220\" fill=\"none\">\n    <rect x=\"0.5\" y=\"0.5\" width=\"379\" height=\"219\" rx=\"6\" fill=\"none\" stroke=\"#30363d\" stroke-width=\"1\"/>\n    <text x=\"30\" y=\"35\" fill=\"white\" font-size=\"16\" font-weight=\"600\" font-family=\"Segoe UI, Ubuntu, -apple-system, sans-serif\">Peter Benc\x27s GitHub Statistics</text>\n    <line x1=\"30\" y1=\"46\" x2=\"350\" y2=\"46\" stroke=\"#21262d\" stroke-width=\"1\"/>\n    " ++
  rows_svg ++ "\n</svg>"

/-- The `LANG_COLORS` table (lines 188-197). -/
def LANG_COLORS : List (String × String) :=
  [("TypeScript", "#3178c6"), ("JavaScript", "#f1e05a"), ("HTML", "#e34c26"),
   ("CSS", "#563d7c"), ("Python", "#3572A5"), ("Rust", "#dea584"),
   ("Solidity", "#AA6746"), ("Shell", "#89e051"), ("Nix", "#7e7eff"),
   ("Haskell", "#5e5086"), ("C", "#555555"), ("C++", "#f34b7d"),
   ("Go", "#00ADD8"), ("Java", "#b07219"), ("Dockerfile", "#384d54"),
   ("SCSS", "#c6538c"), ("Vue", "#41b883"), ("Svelte", "#ff3e00"),
   ("Dart", "#00B4AB"), ("Kotlin", "#A97BFF"), ("Swift", "#F05138"),
   ("Ruby", "#701516"), ("PHP", "#4F5D95"), ("Cadence", "#00ef8b")]

/-- `LANG_COLORS.get(lang, "#8b949e")` (lines 265, 279). -/
def langColor (lang : String) : String :=
  match LANG_COLORS.find? (fun p => p.1 = lang) with
  | some p => p.2
  | none => "#8b949e"

/-- Stable descending insertion by byte size: a new item goes in front of
the first strictly smaller entry, after all entries of greater or equal
size. -/
def insertBySizeDesc (x : String × Nat) :
    List (String × Nat) → List (String × Nat)
  | [] => [x]
  | y :: ys => if y.2 < x.2 then x :: y :: ys else y :: insertBySizeDesc x ys

/-- `sorted(languages.items(), key=lambda x: x[1], reverse=True)`
(line 246): the stable sort by byte size descending, realized as a stable
insertion sort (the stable descending sort of a list is unique, so this
computes the same list as Python's Timsort call). -/
def sortBySizeDesc (l : List (String × Nat)) : List (String × Nat) :=
  l.foldr insertBySizeDesc []

/-- `sorted_langs` (line 246): the top 10 languages by byte size. -/
def sorted_langs (languages : List (String × Nat)) : List (String × Nat) :=
  (sortBySizeDesc languages).take 10

/-- `total` (line 247): the summed byte sizes of the selected top-10
entries only. -/
def langTotal (languages : List (String × Nat)) : Nat :=
  ((sorted_langs languages).map Prod.snd).sum

/-- One segment of the language bar: x offset, width (exact rationals in
place of the Python floats) and fill color. -/
structure BarSegment where
  x : ℚ
  width : ℚ
  color : String
deriving Repr, DecidableEq

/-- The bar-building loop (lines 260-267): `x_offset` starts at 30, each
segment is `max((size / total) * bar_width, 1)` wide with
`bar_width = card_width - 60 = 320`, and `x_offset` advances by the
segment width. -/
def barSegments (languages : List (String × Nat)) : List BarSegment :=
  let total := langTotal languages
  ((sorted_langs languages).foldl
    (fun (acc : List BarSegment × ℚ) p =>
      let width := max (((p.2 : ℚ) / (total : ℚ)) * 320) 1
      (acc.1 ++ [⟨acc.2, width, langColor p.1⟩], acc.2 + width))
    ([], 30)).1

/-- Round a rational to the nearest integer, halves to even: the rounding
of Python float formatting, idealized over exact rationals. -/
def roundHalfEven (q : ℚ) : ℤ :=
  let f : ℤ := q.floor
  let frac : ℚ := q - (f : ℚ)
  if frac < 1 / 2 then f
  else if 1 / 2 < frac then f + 1
  else if f % 2 = 0 then f else f + 1

/-- Left-pads a digit string with zeros to length `d`. -/
def padZeros (s : String) (d : Nat) : String :=
  String.mk (List.replicate (d - s.length) '0') ++ s

/-- Renders a nonnegative rational with exactly `d` decimal places
(Python's `f"{x:.df}"`, idealized: the binary-float value is replaced by
the exact rational). -/
def fmtFixed (q : ℚ) (d : Nat) : String :=
  let n := (roundHalfEven (q * ((10 : ℚ) ^ d))).toNat
  let base := 10 ^ d
  if d = 0 then toString n
  else toString (n / base) ++ "." ++ padZeros (toString (n % base)) d

/-- One `<rect>` of the bar (line 266): x offset and width rendered to
one decimal place, fixed `y = 52` and `height = 8`. -/
def barRect (seg : BarSegment) : String :=
  "<rect x=\"" ++ fmtFixed seg.x 1 ++ "\" y=\"52\" width=\"" ++
  fmtFixed seg.width 1 ++ "\" height=\"8\" fill=\"" ++ seg.color ++ "\"/>"

/-- `bar_svg` (lines 257-268): the clip path (with `bar_y = 52`,
`bar_w = 320`, `bar_h = 8` substituted) followed by the clipped group of
segment rects. -/
def barSvg (languages : List (String × Nat)) : String :=
  "<clipPath id=\"barClip\"><rect x=\"30\" y=\"52\" width=\"320\" height=\"8\" rx=\"4\"/></clipPath>" ++
  "<g clip-path=\"url(#barClip)\">" ++
  String.join ((barSegments languages).map barRect) ++ "</g>"

/-- One label row entry (lines 273-284): `pct = (size / total) * 100` to
two decimal places, two-column layout with `x = 30 + (i % 2) * 160.0`
(rendered as the Python float string `30.0`/`190.0`) and
`y = 76 + (i / 2) * 22`. -/
def langLabel (total : Nat) (i : Nat) (p : String × Nat) : String :=
  let pct : ℚ := ((p.2 : ℚ) / (total : ℚ)) * 100
  let x : String := if i % 2 = 0 then "30.0" else "190.0"
  let y : Nat := 76 + (i / 2) * 22
  "\n        <g transform=\"translate(" ++ x ++ ", " ++ toString y ++
  ")\">\n            <circle cx=\"5\" cy=\"-3\" r=\"5\" fill=\"" ++
  langColor p.1 ++
  "\"/>\n            <text x=\"15\" y=\"0\" fill=\"#c9d1d9\" font-size=\"12\" font-family=\"Segoe UI, Ubuntu, -apple-system, sans-serif\"><tspan font-weight=\"600\">" ++
  p.1 ++ "</tspan> <tspan fill=\"#8b949e\">" ++ fmtFixed pct 2 ++
  "%</tspan></text>\n        </g>"

/-- `labels_svg` (lines 271-284). -/
def labelsSvg (languages : List (String × Nat)) : String :=
  String.join ((sorted_langs languages).enum.map
    (fun p => langLabel (langTotal languages) p.1 p.2))

/-- The placeholder document returned for an empty tally (line 249). -/
def emptyLangsSvg : String :=
  "<svg xmlns=\"http://www.w3.org/2000/svg\"></svg>"

/-- `generate_langs_svg` (lines 245-296): when the selected total is
zero the placeholder document is returned before any share is computed;
otherwise the 380x220 card with the segmented bar and the two-column
label list. (`num_rows` at line 286 is computed but unused: the card
height is the constant 220.) -/
def generate_langs_svg (languages : List (String × Nat)) : String :=
  let total := langTotal languages
  if total = 0 then emptyLangsSvg
  else
    "<svg xmlns=\"http://www.w3.org/2000/svg\" width=\"380\" height=\"220\" viewBox=\"0 0 380 220\" fill=\"none\">\n    <rect x=\"0.5\" y=\"0.5\" width=\"379\" height=\"219\" rx=\"6\" fill=\"none\" stroke=\"#30363d\" stroke-width=\"1\"/>\n    <text x=\"30\" y=\"35\" fill=\"white\" font-size=\"16\" font-weight=\"600\" font-family=\"Segoe UI, Ubuntu, -apple-system, sans-serif\">Languages Used (By File Size)</text>\n    <line x1=\"30\" y1=\"46\" x2=\"350\" y2=\"46\" stroke=\"#21262d\" stroke-width=\"1\"/>\n    " ++
    barSvg languages ++ "\n    " ++ labelsSvg languages ++ "\n</svg>"

/-- Direct recursive form of the bar-building loop, used to reason about
the fold in `barSegments`: from offset `x`, lay the segments of the given
entries side by side. -/
def segsFromAux (total : Nat) : ℚ → List (String × Nat) → List BarSegment
  | _, [] => []
  | x, p :: rest =>
    let w := max (((p.2 : ℚ) / (total : ℚ)) * 320) 1
    ⟨x, w, langColor p.1⟩ :: segsFromAux total (x + w) rest

/-- Relation used to reason about inserting a zero-stat repository into a
scan: `s` is the state of the run with the extra repository `r`, `t` the
state of the run without it; totals and tally agree, and the seen sets
agree up to the extra name `r`. -/
def ZeroInsertRel (r : String) (s t : ScanState) : Prop :=
  s.additions = t.additions ∧ s.deletions = t.deletions ∧
  s.languages = t.languages ∧
  (∀ x, x ∈ t.seen → x ∈ s.seen) ∧
  (∀ x, x ∈ s.seen → x ∈ t.seen ∨ x = r)

lemma seen_processPersonal_mono (stats : String → Nat × Nat)
    (lg : String → List (String × Nat)) (s : ScanState) (node : RepoNode)
    (x : String) (hx : x ∈ s.seen) :
    x ∈ (processPersonal stats lg s node).seen := by
  unfold processPersonal
  split
  · exact hx
  · exact List.mem_cons_of_mem _ hx

lemma seen_foldPersonal_mono (stats : String → Nat × Nat)
    (lg : String → List (String × Nat)) (P : List RepoNode) :
    ∀ (s : ScanState) (x : String), x ∈ s.seen →
      x ∈ (P.foldl (processPersonal stats lg) s).seen := by
  induction P with
  | nil => exact fun s x hx => hx
  | cons p P ih =>
    intro s x hx
    exact ih _ x (seen_processPersonal_mono stats lg s p x hx)

lemma seen_processPersonal_self (stats : String → Nat × Nat)
    (lg : String → List (String × Nat)) (s : ScanState) (node : RepoNode)
    (hne : node.nameWithOwner ≠ "") :
    node.nameWithOwner ∈ (processPersonal stats lg s node).seen := by
  simp only [processPersonal, if_neg hne]
  exact List.mem_cons_self _ _

lemma seen_foldPersonal_of_mem (stats : String → Nat × Nat)
    (lg : String → List (String × Nat)) (P : List RepoNode)
    (node : RepoNode) (hmem : node ∈ P) (hne : node.nameWithOwner ≠ "") :
    ∀ s : ScanState,
      node.nameWithOwner ∈ (P.foldl (processPersonal stats lg) s).seen := by
  induction P with
  | nil => exact absurd hmem (List.not_mem_nil _)
  | cons p P ih =>
    intro s
    rcases List.mem_cons.mp hmem with h | h
    · subst h
      exact seen_foldPersonal_mono stats lg P _ _
        (seen_processPersonal_self stats lg s node hne)
    · exact ih h _

lemma seen_processContrib_mono (stats : String → Nat × Nat)
    (lg : String → List (String × Nat)) (s : ScanState) (c : String)
    (x : String) (hx : x ∈ s.seen) :
    x ∈ (processContrib stats lg s c).seen := by
  unfold processContrib
  split
  · exact hx
  · exact List.mem_cons_of_mem _ hx

lemma seen_foldContrib_mono (stats : String → Nat × Nat)
    (lg : String → List (String × Nat)) (C : List String) :
    ∀ (s : ScanState) (x : String), x ∈ s.seen →
      x ∈ (C.foldl (processContrib stats lg) s).seen := by
  induction C with
  | nil => exact fun s x hx => hx
  | cons c C ih =>
    intro s x hx
    exact ih _ x (seen_processContrib_mono stats lg s c x hx)

lemma processContrib_skip (stats : String → Nat × Nat)
    (lg : String → List (String × Nat)) (s : ScanState) (c : String)
    (h : c ∈ s.seen) : processContrib stats lg s c = s := by
  simp [processContrib, h]

/-- C1: a repository that appears both in the personal repository list
and in the explicit contribution list has its line-change and language
contribution counted exactly once: the personal pass enters its name into
the seen set, so its occurrence in the contribution list is skipped and
the scan result is the same as if that occurrence were absent. -/
theorem dedup_repo_counted_once (stats : String → Nat × Nat)
    (lg : String → List (String × Nat)) (P : List RepoNode)
    (C₁ C₂ : List String) (node : RepoNode) (hmem : node ∈ P)
    (hne : node.nameWithOwner ≠ "") :
    scanContributions stats lg P (C₁ ++ node.nameWithOwner :: C₂) =
      scanContributions stats lg P (C₁ ++ C₂) := by
  unfold scanContributions
  rw [List.foldl_append, List.foldl_append, List.foldl_cons]
  congr 1
  exact processContrib_skip stats lg _ _
    (seen_foldContrib_mono stats lg C₁ _ _
      (seen_foldPersonal_of_mem stats lg P node hmem hne _))

/-- Witness for `dedup_repo_counted_once` at concrete inputs: the repo
`PeterBenc/dotfiles` is both a personal repo and listed again in the
contribution list; the duplicate listing changes nothing. -/
theorem dedup_repo_counted_once_witness :
    scanContributions (fun _ => (1, 2)) (fun _ => [("Python", 10)])
        [⟨"PeterBenc/dotfiles", 5⟩]
        (["trezor/trezor-suite", "PeterBenc/dotfiles"] ++ []) =
      scanContributions (fun _ => (1, 2)) (fun _ => [("Python", 10)])
        [⟨"PeterBenc/dotfiles", 5⟩] (["trezor/trezor-suite"] ++ []) :=
  dedup_repo_counted_once (fun _ => (1, 2)) (fun _ => [("Python", 10)])
    [⟨"PeterBenc/dotfiles", 5⟩] ["trezor/trezor-suite"] []
    ⟨"PeterBenc/dotfiles", 5⟩ (by decide) (by decide)

lemma zeroInsertRel_refl (r : String) (s : ScanState) : ZeroInsertRel r s s :=
  ⟨rfl, rfl, rfl, fun _ h => h, fun _ h => Or.inl h⟩

lemma zeroInsertRel_processPersonal (stats : String → Nat × Nat)
    (lg : String → List (String × Nat)) (r : String) (s t : ScanState)
    (node : RepoNode) (h : ZeroInsertRel r s t) :
    ZeroInsertRel r (processPersonal stats lg s node)
      (processPersonal stats lg t node) := by
  obtain ⟨ha, hd, hl, hts, hst⟩ := h
  by_cases hc : node.nameWithOwner = ""
  · simpa [processPersonal, hc] using ⟨ha, hd, hl, hts, hst⟩
  · simp only [processPersonal, if_neg hc, ZeroInsertRel, ha, hd, hl]
    refine ⟨trivial, trivial, trivial, ?_, ?_⟩
    · intro x hx
      rcases List.mem_cons.mp hx with h1 | h1
      · exact h1 ▸ List.mem_cons_self _ _
      · exact List.mem_cons_of_mem _ (hts x h1)
    · intro x hx
      rcases List.mem_cons.mp hx with h1 | h1
      · exact Or.inl (h1 ▸ List.mem_cons_self _ _)
      · rcases hst x h1 with h2 | h2
        · exact Or.inl (List.mem_cons_of_mem _ h2)
        · exact Or.inr h2

lemma zeroInsertRel_processContrib (stats : String → Nat × Nat)
    (lg : String → List (String × Nat)) (r : String) (s t : ScanState)
    (c : String) (h0 : stats r = (0, 0)) (h : ZeroInsertRel r s t) :
    ZeroInsertRel r (processContrib stats lg s c)
      (processContrib stats lg t c) := by
  obtain ⟨ha, hd, hl, hts, hst⟩ := h
  by_cases hct : c ∈ t.seen
  · have hcs : c ∈ s.seen := hts c hct
    simp only [processContrib, if_pos hct, if_pos hcs]
    exact ⟨ha, hd, hl, hts, hst⟩
  · by_cases hcs : c ∈ s.seen
    · have hcr : c = r := by
        rcases hst c hcs with h1 | h1
        · exact absurd h1 hct
        · exact h1
      subst hcr
      simp only [processContrib, if_pos hcs, if_neg hct, h0,
        Nat.add_zero, Nat.lt_irrefl, if_false, ZeroInsertRel, ha, hd, hl]
      refine ⟨trivial, trivial, trivial, ?_, ?_⟩
      · intro x hx
        rcases List.mem_cons.mp hx with h1 | h1
        · exact h1 ▸ hcs
        · exact hts x h1
      · intro x hx
        rcases hst x hx with h1 | h1
        · exact Or.inl (List.mem_cons_of_mem _ h1)
        · exact Or.inr h1
    · simp only [processContrib, if_neg hcs, if_neg hct, ZeroInsertRel,
        ha, hd, hl]
      refine ⟨trivial, trivial, trivial, ?_, ?_⟩
      · intro x hx
        rcases List.mem_cons.mp hx with h1 | h1
        · exact h1 ▸ List.mem_cons_self _ _
        · exact List.mem_cons_of_mem _ (hts x h1)
      · intro x hx
        rcases List.mem_cons.mp hx with h1 | h1
        · exact Or.inl (h1 ▸ List.mem_cons_self _ _)
        · rcases hst x h1 with h2 | h2
          · exact Or.inl (List.mem_cons_of_mem _ h2)
          · exact Or.inr h2

lemma zeroInsertRel_foldPersonal (stats : String → Nat × Nat)
    (lg : String → List (String × Nat)) (r : String) (P : List RepoNode) :
    ∀ s t : ScanState, ZeroInsertRel r s t →
      ZeroInsertRel r (P.foldl (processPersonal stats lg) s)
        (P.foldl (processPersonal stats lg) t) := by
  induction P with
  | nil => exact fun s t h => h
  | cons p P ih =>
    intro s t h
    exact ih _ _ (zeroInsertRel_processPersonal stats lg r s t p h)

lemma zeroInsertRel_foldContrib (stats : String → Nat × Nat)
    (lg : String → List (String × Nat)) (r : String) (C : List String)
    (h0 : stats r = (0, 0)) :
    ∀ s t : ScanState, ZeroInsertRel r s t →
      ZeroInsertRel r (C.foldl (processContrib stats lg) s)
        (C.foldl (processContrib stats lg) t) := by
  induction C with
  | nil => exact fun s t h => h
  | cons c C ih =>
    intro s t h
    exact ih _ _ (zeroInsertRel_processContrib stats lg r s t c h0 h)

lemma zeroInsertRel_insert_personal (stats : String → Nat × Nat)
    (lg : String → List (String × Nat)) (s : ScanState) (node : RepoNode)
    (h0 : stats node.nameWithOwner = (0, 0)) :
    ZeroInsertRel node.nameWithOwner (processPersonal stats lg s node) s := by
  by_cases hc : node.nameWithOwner = ""
  · simp only [processPersonal, if_pos hc]
    exact zeroInsertRel_refl _ s
  · simp only [processPersonal, if_neg hc, h0, Nat.add_zero,
      Nat.lt_irrefl, if_false, ZeroInsertRel]
    refine ⟨trivial, trivial, trivial, fun x hx => List.mem_cons_of_mem _ hx, ?_⟩
    intro x hx
    rcases List.mem_cons.mp hx with h1 | h1
    · exact Or.inr h1
    · exact Or.inl h1

lemma zeroInsertRel_insert_contrib (stats : String → Nat × Nat)
    (lg : String → List (String × Nat)) (s : ScanState) (r : String)
    (h0 : stats r = (0, 0)) :
    ZeroInsertRel r (processContrib stats lg s r) s := by
  by_cases hc : r ∈ s.seen
  · simp only [processContrib, if_pos hc]
    exact zeroInsertRel_refl r s
  · simp only [processContrib, if_neg hc, h0, Nat.add_zero,
      Nat.lt_irrefl, if_false, ZeroInsertRel]
    refine ⟨trivial, trivial, trivial, fun x hx => List.mem_cons_of_mem _ hx, ?_⟩
    intro x hx
    rcases List.mem_cons.mp hx with h1 | h1
    · exact Or.inr h1
    · exact Or.inl h1

/-- C2: a repository whose contributor stats are `(0, 0)` for the target
user contributes nothing to the line totals and no bytes to the language
tally, no matter what the language endpoint would report for it: listing
it in the contribution list (first conjunct) or among the personal repos
(second conjunct) leaves the observable scan outcome unchanged. -/
theorem zero_contribution_excluded (stats : String → Nat × Nat)
    (lg : String → List (String × Nat)) (P P₁ P₂ : List RepoNode)
    (C C₁ C₂ : List String) (r : String) (node : RepoNode)
    (hr : stats r = (0, 0)) (hnode : stats node.nameWithOwner = (0, 0)) :
    scanTotals stats lg P (C₁ ++ r :: C₂) =
      scanTotals stats lg P (C₁ ++ C₂) ∧
    scanTotals stats lg (P₁ ++ node :: P₂) C =
      scanTotals stats lg (P₁ ++ P₂) C := by
  constructor
  · unfold scanTotals scanContributions
    rw [List.foldl_append, List.foldl_append, List.foldl_cons]
    have hrel := zeroInsertRel_foldContrib stats lg r C₂ hr _ _
      (zeroInsertRel_insert_contrib stats lg
        (C₁.foldl (processContrib stats lg)
          (P.foldl (processPersonal stats lg) ⟨[], 0, 0, []⟩)) r hr)
    obtain ⟨ha, hd, hl, -, -⟩ := hrel
    simp [ha, hd, hl]
  · unfold scanTotals scanContributions
    rw [List.foldl_append, List.foldl_append, List.foldl_cons]
    have hrel := zeroInsertRel_foldContrib stats lg node.nameWithOwner C hnode _ _
      (zeroInsertRel_foldPersonal stats lg node.nameWithOwner P₂ _ _
        (zeroInsertRel_insert_personal stats lg
          (P₁.foldl (processPersonal stats lg) ⟨[], 0, 0, []⟩) node hnode))
    obtain ⟨ha, hd, hl, -, -⟩ := hrel
    simp [ha, hd, hl]

/-- Witness for `zero_contribution_excluded` at concrete inputs: the repo
`org/zero` has stats `(0, 0)` and a nonzero language report, yet listing
it (in either list) changes neither the totals nor the tally. -/
theorem zero_contribution_excluded_witness :
    scanTotals (fun s => if s = "org/zero" then (0, 0) else (5, 7))
        (fun _ => [("TypeScript", 1000)]) [⟨"PeterBenc/dotfiles", 5⟩]
        (["trezor/trezor-suite"] ++ "org/zero" :: ["vacuumlabs/adalite"]) =
      scanTotals (fun s => if s = "org/zero" then (0, 0) else (5, 7))
        (fun _ => [("TypeScript", 1000)]) [⟨"PeterBenc/dotfiles", 5⟩]
        (["trezor/trezor-suite"] ++ ["vacuumlabs/adalite"]) ∧
    scanTotals (fun s => if s = "org/zero" then (0, 0) else (5, 7))
        (fun _ => [("TypeScript", 1000)])
        ([⟨"PeterBenc/dotfiles", 5⟩] ++ ⟨"org/zero", 0⟩ :: [])
        ["trezor/trezor-suite"] =
      scanTotals (fun s => if s = "org/zero" then (0, 0) else (5, 7))
        (fun _ => [("TypeScript", 1000)]) ([⟨"PeterBenc/dotfiles", 5⟩] ++ [])
        ["trezor/trezor-suite"] :=
  zero_contribution_excluded
    (fun s => if s = "org/zero" then (0, 0) else (5, 7))
    (fun _ => [("TypeScript", 1000)]) [⟨"PeterBenc/dotfiles", 5⟩]
    [⟨"PeterBenc/dotfiles", 5⟩] [] ["trezor/trezor-suite"]
    ["trezor/trezor-suite"] ["vacuumlabs/adalite"] "org/zero"
    ⟨"org/zero", 0⟩ (by decide) (by decide)

/-- C4: when the contributor-stats endpoint answers the "still computing"
status 202 on every attempt, `get_contributor_stats` issues exactly 3
requests, sleeps 3 seconds after each of them (in particular the
consecutive attempts are separated by the fixed 3-second delay), and then
returns `(0, 0)` as an ordinary value: the repository degrades to zero
stats instead of raising or retrying further. -/
theorem retry_exhaustion_returns_zero (user : String)
    (resp : Nat → StatsResponse) (h : ∀ i, (resp i).status = 202) :
    get_contributor_stats user resp = ⟨(0, 0), 3, [3, 3, 3]⟩ := by
  simp [get_contributor_stats, statsLoop, afterLoop, h 0, h 1, h 2]

/-- Witness for `retry_exhaustion_returns_zero`: an endpoint that always
answers 202. -/
theorem retry_exhaustion_returns_zero_witness :
    get_contributor_stats "PeterBenc" (fun _ => ⟨202, none⟩) =
      ⟨(0, 0), 3, [3, 3, 3]⟩ :=
  retry_exhaustion_returns_zero "PeterBenc" (fun _ => ⟨202, none⟩)
    (fun _ => rfl)

lemma orgStars_foldl_from (star_count : String → Nat) :
    ∀ (S : List String) (a : Nat),
      S.foldl (fun acc repo_full => acc + star_count repo_full) a =
        a + (S.map star_count).sum := by
  intro S
  induction S with
  | nil => simp
  | cons s S ih =>
    intro a
    simp [List.foldl_cons, ih, Nat.add_assoc]

/-- C5: the rendered star total is the sum of the personal repos' star
counts plus the sum of the allow-listed repos' star counts, and appending
one repository (not overlapping the personal set) to the allow-list
raises the total by exactly that repository's star count. -/
theorem star_accounting_additive (star_count : String → Nat)
    (user_repos : List RepoNode) (star_repos : List String) (r : String)
    (_hnew : r ∉ user_repos.map RepoNode.nameWithOwner) :
    totalStars star_count user_repos star_repos =
      (user_repos.map RepoNode.stargazerCount).sum +
        (star_repos.map star_count).sum ∧
    totalStars star_count user_repos (star_repos ++ [r]) =
      totalStars star_count user_repos star_repos + star_count r := by
  constructor
  · unfold totalStars personalStars orgStars
    rw [orgStars_foldl_from, Nat.zero_add]
  · unfold totalStars personalStars orgStars
    rw [orgStars_foldl_from, orgStars_foldl_from, Nat.zero_add,
      Nat.zero_add, List.map_append, List.sum_append]
    simp [Nat.add_assoc]

/-- Witness for `star_accounting_additive`: adding `nufi-official/brud`
to the allow-list of a run whose personal set does not contain it. -/
theorem star_accounting_additive_witness :
    totalStars (fun _ => 40) [⟨"PeterBenc/dotfiles", 5⟩]
        ["vacuumlabs/adalite"] =
      ([⟨"PeterBenc/dotfiles", 5⟩].map RepoNode.stargazerCount).sum +
        ((["vacuumlabs/adalite"] : List String).map (fun _ => 40)).sum ∧
    totalStars (fun _ => 40) [⟨"PeterBenc/dotfiles", 5⟩]
        (["vacuumlabs/adalite"] ++ ["nufi-official/brud"]) =
      totalStars (fun _ => 40) [⟨"PeterBenc/dotfiles", 5⟩]
        ["vacuumlabs/adalite"] + 40 :=
  star_accounting_additive (fun _ => 40) [⟨"PeterBenc/dotfiles", 5⟩]
    ["vacuumlabs/adalite"] "nufi-official/brud" (by decide)

/-- C6 counterexample: an error-bearing API response is NOT fatal. The
concrete response with HTTP status 200, an `errors` key in the body and a
null `data` payload makes `get_contributions_for_year` return the
ordinary all-zero totals (the `graphql` helper only prints the errors),
so the run continues to aggregate and render, contradicting the claim
that every form of failure of this query aborts the run. -/
theorem api_error_response_not_fatal_cx :
    (GqlResponse.hasErrors (α := ContributionsCollection)
        ⟨200, true, none⟩) = true ∧
    get_contributions_for_year (.ok ⟨200, true, none⟩) = .ok ⟨0, 0, 0⟩ :=
  ⟨rfl, rfl⟩

/-- C6 amended: a transport error of the identity or contribution-totals
query propagates and aborts the run, and a non-success HTTP status (400
and above) raises `HTTPError` via `raise_for_status` and aborts the run;
but an error-bearing API response delivered with a success status is only
logged and the query returns an ordinary (zero-filled or parsed) result,
so the run continues. -/
theorem fatal_query_failure_amended (e : String)
    (resp : GqlResponse ContributionsCollection) :
    (get_contributions_for_year (.error e) = .error e) ∧
    (400 ≤ resp.status →
      get_contributions_for_year (.ok resp) = .error "HTTPError") ∧
    (resp.status < 400 →
      (get_contributions_for_year (.ok resp)).isOk = true) := by
  refine ⟨rfl, ?_, ?_⟩
  · intro hs
    simp [get_contributions_for_year, graphql, if_pos hs]
  · intro hs
    have hns : ¬ 400 ≤ resp.status := Nat.not_le.mpr hs
    cases hp : resp.payload with
    | none =>
      simp only [get_contributions_for_year, graphql, if_neg hns, hp]
      rfl
    | some c =>
      simp only [get_contributions_for_year, graphql, if_neg hns, hp]
      rfl

/-- Witness for `fatal_query_failure_amended` at concrete responses: a
raised transport error, a 500 response, and a 200 response bearing an
`errors` key. -/
theorem fatal_query_failure_amended_witness :
    (get_contributions_for_year (.error "connection reset") =
      .error "connection reset") ∧
    (get_contributions_for_year
        (.ok (⟨500, false, none⟩ : GqlResponse ContributionsCollection)) =
      .error "HTTPError") ∧
    ((get_contributions_for_year
        (.ok (⟨200, true, none⟩ :
          GqlResponse ContributionsCollection))).isOk = true) :=
  ⟨(fatal_query_failure_amended "connection reset" ⟨500, false, none⟩).1,
   (fatal_query_failure_amended "connection reset"
      ⟨500, false, none⟩).2.1 (by decide),
   (fatal_query_failure_amended "connection reset"
      ⟨200, true, none⟩).2.2 (by decide)⟩

lemma barSegments_foldl_eq (total : Nat) (l : List (String × Nat)) :
    ∀ (acc : List BarSegment) (x : ℚ),
      (l.foldl
        (fun (acc : List BarSegment × ℚ) p =>
          let width := max (((p.2 : ℚ) / (total : ℚ)) * 320) 1
          (acc.1 ++ [⟨acc.2, width, langColor p.1⟩], acc.2 + width))
        (acc, x)).1 = acc ++ segsFromAux total x l := by
  induction l with
  | nil => intro acc x; simp [segsFromAux]
  | cons p l ih =>
    intro acc x
    simp only [List.foldl_cons, segsFromAux, ih, List.append_assoc,
      List.singleton_append]

lemma barSegments_eq_segsFromAux (languages : List (String × Nat)) :
    barSegments languages =
      segsFromAux (langTotal languages) 30 (sorted_langs languages) := by
  unfold barSegments
  rw [barSegments_foldl_eq]
  simp

lemma segsFromAux_map_width (total : Nat) (l : List (String × Nat)) :
    ∀ x : ℚ, (segsFromAux total x l).map BarSegment.width =
      l.map (fun p => max (((p.2 : ℚ) / (total : ℚ)) * 320) 1) := by
  induction l with
  | nil => intro x; simp [segsFromAux]
  | cons p l ih => intro x; simp [segsFromAux, ih]

lemma segsFromAux_chain (total : Nat) (l : List (String × Nat)) :
    ∀ x : ℚ, List.Chain' (fun a b => b.x = a.x + a.width)
      (segsFromAux total x l) := by
  induction l with
  | nil => intro x; simp [segsFromAux]
  | cons p l ih =>
    intro x
    rw [segsFromAux, List.chain'_cons']
    refine ⟨?_, ih _⟩
    intro b hb
    cases l with
    | nil => simp [segsFromAux] at hb
    | cons q l =>
      simp only [segsFromAux, List.head?_cons, Option.mem_def,
        Option.some.injEq] at hb
      rw [← hb]

lemma mem_insertBySizeDesc (x z : String × Nat) (l : List (String × Nat)) :
    z ∈ insertBySizeDesc x l → z = x ∨ z ∈ l := by
  induction l with
  | nil => intro h; simp [insertBySizeDesc] at h; exact Or.inl h
  | cons y ys ih =>
    intro h
    by_cases hc : y.2 < x.2
    · simp only [insertBySizeDesc, if_pos hc] at h
      rcases List.mem_cons.mp h with h1 | h1
      · exact Or.inl h1
      · exact Or.inr h1
    · simp only [insertBySizeDesc, if_neg hc] at h
      rcases List.mem_cons.mp h with h1 | h1
      · exact Or.inr (h1 ▸ List.mem_cons_self _ _)
      · rcases ih h1 with h2 | h2
        · exact Or.inl h2
        · exact Or.inr (List.mem_cons_of_mem _ h2)

lemma pairwise_insertBySizeDesc (x : String × Nat) (l : List (String × Nat))
    (h : l.Pairwise (fun a b => b.2 ≤ a.2)) :
    (insertBySizeDesc x l).Pairwise (fun a b => b.2 ≤ a.2) := by
  induction l with
  | nil => simp [insertBySizeDesc]
  | cons y ys ih =>
    rcases List.pairwise_cons.mp h with ⟨hy, hys⟩
    by_cases hc : y.2 < x.2
    · rw [insertBySizeDesc, if_pos hc]
      refine List.pairwise_cons.mpr ⟨?_, h⟩
      intro b hb
      rcases List.mem_cons.mp hb with h1 | h1
      · exact h1 ▸ Nat.le_of_lt hc
      · exact Nat.le_trans (hy b h1) (Nat.le_of_lt hc)
    · rw [insertBySizeDesc, if_neg hc]
      refine List.pairwise_cons.mpr ⟨?_, ih hys⟩
      intro b hb
      rcases mem_insertBySizeDesc x b ys hb with h1 | h1
      · exact h1 ▸ Nat.le_of_not_lt hc
      · exact hy b h1

lemma pairwise_sortBySizeDesc (l : List (String × Nat)) :
    (sortBySizeDesc l).Pairwise (fun a b => b.2 ≤ a.2) := by
  unfold sortBySizeDesc
  induction l with
  | nil => simp
  | cons p l ih => exact pairwise_insertBySizeDesc p _ ih

lemma pairwise_sorted_langs (languages : List (String × Nat)) :
    (sorted_langs languages).Pairwise (fun a b => b.2 ≤ a.2) :=
  List.Pairwise.take (pairwise_sortBySizeDesc languages)

lemma sum_map_share (T : ℚ) (l : List (String × Nat)) :
    (l.map (fun p => ((p.2 : ℚ) / T) * 100)).sum =
      ((((l.map Prod.snd).sum : Nat) : ℚ) / T) * 100 := by
  induction l with
  | nil => simp
  | cons p l ih =>
    simp only [List.map_cons, List.sum_cons, ih, List.map, Nat.cast_add]
    push_cast
    ring

/-- C3: each displayed language's percentage is its byte size divided by
the sum of the selected top-10 sizes only, times 100, so over any tally
with nonzero selected total (in particular tallies with more than 10
languages) the displayed percentages sum to exactly 100 in exact
arithmetic. -/
theorem topTen_percentages_sum_100 (languages : List (String × Nat))
    (h : langTotal languages ≠ 0) :
    ((sorted_langs languages).map
      (fun p => ((p.2 : ℚ) / (langTotal languages : ℚ)) * 100)).sum = 100 := by
  rw [sum_map_share]
  have ht : ((sorted_langs languages).map Prod.snd).sum = langTotal languages :=
    rfl
  rw [ht, div_self (by exact_mod_cast h), one_mul]

/-- Witness for `topTen_percentages_sum_100` on a concrete 12-language
tally (more than 10 languages, so two are dropped from the display). -/
theorem topTen_percentages_sum_100_witness :
    langTotal
        [("TypeScript", 700), ("JavaScript", 200), ("HTML", 100),
         ("CSS", 50), ("Python", 40), ("Rust", 30), ("Shell", 20),
         ("Haskell", 10), ("Go", 8), ("Java", 6), ("Nix", 4),
         ("Ruby", 2)] ≠ 0 ∧
    ((sorted_langs
        [("TypeScript", 700), ("JavaScript", 200), ("HTML", 100),
         ("CSS", 50), ("Python", 40), ("Rust", 30), ("Shell", 20),
         ("Haskell", 10), ("Go", 8), ("Java", 6), ("Nix", 4),
         ("Ruby", 2)]).map
      (fun p => ((p.2 : ℚ) /
        (langTotal
          [("TypeScript", 700), ("JavaScript", 200), ("HTML", 100),
           ("CSS", 50), ("Python", 40), ("Rust", 30), ("Shell", 20),
           ("Haskell", 10), ("Go", 8), ("Java", 6), ("Nix", 4),
           ("Ruby", 2)] : ℚ)) * 100)).sum = 100 :=
  ⟨by decide,
   topTen_percentages_sum_100
     [("TypeScript", 700), ("JavaScript", 200), ("HTML", 100),
      ("CSS", 50), ("Python", 40), ("Rust", 30), ("Shell", 20),
      ("Haskell", 10), ("Go", 8), ("Java", 6), ("Nix", 4),
      ("Ruby", 2)] (by decide)⟩

/-- C7 counterexample: a bar segment's width is NOT always its share of
the displayed total times the bar width. For the tally
`{C: 1000, Haskell: 1}` the second segment is rendered 1 unit wide
(line 264 clamps each width to a minimum of 1), while the share times the
bar width is `1/1001 * 320 < 1`. -/
theorem bar_width_not_proportional_cx :
    ((barSegments [("C", 1000), ("Haskell", 1)]).map BarSegment.width).get? 1 =
      some 1 ∧
    ((1 : ℚ) / ((langTotal [("C", 1000), ("Haskell", 1)] : Nat) : ℚ)) * 320 ≠
      1 := by
  have ht : langTotal [("C", 1000), ("Haskell", 1)] = 1001 := rfl
  constructor
  · rw [barSegments_eq_segsFromAux, segsFromAux_map_width]
    have hs : sorted_langs [("C", 1000), ("Haskell", 1)] =
        [("C", 1000), ("Haskell", 1)] := rfl
    rw [hs, ht]
    simp only [List.map_cons, List.map_nil, List.get?]
    have hle : ((1 : Nat) : ℚ) / ((1001 : Nat) : ℚ) * 320 ≤ 1 := by
      push_cast
      norm_num
    rw [max_eq_right hle]
  · rw [ht]
    push_cast
    norm_num

/-- C7 amended: for every tally, the rendered segment widths are
`max(share × bar_width, 1)` — proportional to each displayed language's
share of the top-10 total except that every segment is at least 1 unit
wide — the displayed languages are ordered by descending byte size, and
the segments are laid out adjacently left to right (each segment starts
where the previous one ends). -/
theorem bar_segments_amended (languages : List (String × Nat)) :
    (barSegments languages).map BarSegment.width =
      (sorted_langs languages).map
        (fun p => max (((p.2 : ℚ) / (langTotal languages : ℚ)) * 320) 1) ∧
    (sorted_langs languages).Pairwise (fun a b => b.2 ≤ a.2) ∧
    List.Chain' (fun a b => b.x = a.x + a.width) (barSegments languages) := by
  refine ⟨?_, pairwise_sorted_langs languages, ?_⟩
  · rw [barSegments_eq_segsFromAux, segsFromAux_map_width]
  · rw [barSegments_eq_segsFromAux]
    exact segsFromAux_chain _ _ _

/-- C8: every value on the statistics card is rendered by the one
formatter `format_number`, which implements the thousands-separated
full-integer policy (variant (b) of the spec) — applied uniformly to all
four rows, with sample values confirming the policy and the absence of
any k/M abbreviation. -/
theorem stats_number_formatting_policy (s : AggregateStats) :
    (statsItems s).map (fun it => it.2.1) =
      [s.stars, s.commits, s.prs, s.lines_changed].map format_number ∧
    format_number 1234 = "1,234" ∧ format_number 999999 = "999,999" ∧
    format_number 1500000 = "1,500,000" ∧ format_number 56 = "56" ∧
    format_number 7 = "7" :=
  ⟨rfl, by decide, by decide, by decide, by decide, by decide⟩

/-- C9: when the selected top-10 total is zero — in particular for the
empty tally or an all-zero tally — `generate_langs_svg` returns the fixed
placeholder document before any share is computed, so the division by the
displayed total never occurs with a zero divisor. -/
theorem langs_svg_zero_total_placeholder (languages : List (String × Nat))
    (h : langTotal languages = 0) :
    generate_langs_svg languages = emptyLangsSvg := by
  simp [generate_langs_svg, h]

/-- Witness for `langs_svg_zero_total_placeholder`: a tally whose
languages all have zero bytes (the empty tally behaves identically). -/
theorem langs_svg_zero_total_placeholder_witness :
    langTotal [("TypeScript", 0), ("Python", 0)] = 0 ∧
    generate_langs_svg [("TypeScript", 0), ("Python", 0)] = emptyLangsSvg :=
  ⟨by decide, langs_svg_zero_total_placeholder
    [("TypeScript", 0), ("Python", 0)] (by decide)⟩

/-- C10: the statistics card renders exactly the four rows Stars,
All-time Contributions, Total PRs and Lines of Code Changed, and its
output does not depend on the `issues` field of the input: changing
`issues` alone yields a byte-identical document, even though issues are
fetched, aggregated and passed in. -/
theorem stats_svg_independent_of_issues (s : AggregateStats) (n : Nat) :
    generate_stats_svg { s with issues := n } = generate_stats_svg s ∧
    (statsItems s).map (fun it => it.1) =
      ["Stars", "All-time Contributions", "Total PRs",
       "Lines of Code Changed"] :=
  ⟨rfl, rfl⟩

end GenStats
